import Mathlib

/-!
Shallow embedding of the Gesture-Paper-Burner application core:
the gesture classifier (`gesture.service.ts`, `processGesture` / `dist`)
and the paper state machine with its debouncing game loop
(`app.component.ts`, `handleGameLoop`, `triggerCrumple`, `burnPaper`,
`generateSparks`, file handlers and `reset`).

Numbers are idealised: coordinates, proximities and random draws are
rationals, and the Euclidean distance of the classifier is `Real.sqrt`
over the rational sum of squares.  Since the code only ever compares two
distances, the comparison is given a decidable instance via monotonicity
of `Real.sqrt`, which keeps every embedded function executable.

Deferred callbacks (`setTimeout`) are modelled by explicit state: the
2500 ms burn-to-ashes callback is the `pendingAsh` field together with
the `Event.burnFire` event (the moment the scheduled delay elapses).
The 400 ms un-shake callback only toggles the cosmetic `isShaking` flag
and is not given an event.  Audio cues have no observable state here and
are omitted.
-/

namespace GesturePaperBurner

/-! ### Gesture service (`gesture.service.ts`) -/

/-- `export type GestureType = 'NONE' | 'FIST' | 'OPEN_PALM'`. -/
inductive GestureType
  | NONE
  | FIST
  | OPEN_PALM
deriving DecidableEq, Repr

/-- One MediaPipe hand landmark: a 3D point (`pt.x`, `pt.y`, `pt.z`). -/
structure Landmark where
  x : ℚ
  y : ℚ
  z : ℚ
deriving DecidableEq, Repr

instance : Inhabited Landmark := ⟨⟨0, 0, 0⟩⟩

/-- The sum of squared coordinate differences, the argument of the square
root in the source's `dist` (`Math.pow(d, 2)` written as `d * d`). -/
def distSq (a b : Landmark) : ℚ :=
  (a.x - b.x) * (a.x - b.x) + (a.y - b.y) * (a.y - b.y) +
    (a.z - b.z) * (a.z - b.z)

/-- `dist(a, b) = Math.sqrt((a.x-b.x)^2 + (a.y-b.y)^2 + (a.z-b.z)^2)`:
Euclidean 3D distance between two landmarks. -/
noncomputable def dist (a b : Landmark) : ℝ :=
  Real.sqrt ((distSq a b : ℚ) : ℝ)

theorem distSq_nonneg (a b : Landmark) : 0 ≤ distSq a b :=
  add_nonneg
    (add_nonneg (mul_self_nonneg _) (mul_self_nonneg _))
    (mul_self_nonneg _)

/-- Comparing two Euclidean distances is the same as comparing the
rational sums of squares, because `Real.sqrt` is monotone on
nonnegative reals. -/
theorem dist_lt_dist_iff (a b c d : Landmark) :
    dist a b < dist c d ↔ distSq a b < distSq c d := by
  unfold dist
  rw [Real.sqrt_lt_sqrt_iff (by exact_mod_cast distSq_nonneg a b)]
  exact_mod_cast Iff.rfl

instance decDistLt (a b c d : Landmark) : Decidable (dist a b < dist c d) :=
  decidable_of_iff (distSq a b < distSq c d) (dist_lt_dist_iff a b c d).symm

/-- The bounding-box proximity computation of `processGesture`:
fold the landmark list exactly as the source's `forEach` updates
`minX/maxX/minY/maxY` (initialised to 1, 0, 1, 0), then
`Math.min(Math.max((area - 0.05) / 0.25, 0), 1)`. -/
def proximityOf (lm : List Landmark) : ℚ :=
  let minX := lm.foldl (fun m pt => if pt.x < m then pt.x else m) 1
  let maxX := lm.foldl (fun m pt => if pt.x > m then pt.x else m) 0
  let minY := lm.foldl (fun m pt => if pt.y < m then pt.y else m) 1
  let maxY := lm.foldl (fun m pt => if pt.y > m then pt.y else m) 0
  let width := maxX - minX
  let height := maxY - minY
  let area := width * height
  min (max ((area - 0.05) / 0.25) 0) 1

/-- One iteration of the `tips.forEach` loop of `processGesture` for tip
index `tipIdx` and knuckle index `mcpIdx`: reads `landmarks[tipIdx]`,
`landmarks[mcps[i]]` (computed for `dMcp` but unused in the curl test)
and `landmarks[tipIdx - 2]` (the PIP joint), and reports whether
`dist(tip, wrist) < dist(pip, wrist)`.  `none` models the TypeError a
missing (out-of-bounds, hence `undefined`) landmark raises inside
`dist`. -/
def curlFinger (lm : List Landmark) (wrist : Landmark) (tipIdx mcpIdx : ℕ) :
    Option Bool := do
  let tip ← lm[tipIdx]?
  let _mcp ← lm[mcpIdx]?
  let pip ← lm[tipIdx - 2]?
  pure (decide (dist tip wrist < dist pip wrist))

/-- `processGesture(landmarks)`: proximity from the bounding box, then
the curled-finger count over tips `[8, 12, 16, 20]` with knuckles
`[5, 9, 13, 17]`, classified `curledCount >= 3 → FIST`,
`curledCount == 0 → OPEN_PALM`, otherwise `NONE`.  The source sets the
`handProximity` and `currentGesture` signals; here both results are
returned.  `none` models the frame aborting with a TypeError on a
landmark list too short for some access (the source has no explicit
cardinality check). -/
def processGesture (lm : List Landmark) : Option (GestureType × ℚ) := do
  let proximity := proximityOf lm
  let wrist ← lm[0]?
  let c8 ← curlFinger lm wrist 8 5
  let c12 ← curlFinger lm wrist 12 9
  let c16 ← curlFinger lm wrist 16 13
  let c20 ← curlFinger lm wrist 20 17
  let curledCount :=
    (if c8 then 1 else 0) + (if c12 then 1 else 0) +
    (if c16 then 1 else 0) + (if c20 then 1 else 0)
  let gesture :=
    if curledCount ≥ 3 then GestureType.FIST
    else if curledCount = 0 then GestureType.OPEN_PALM
    else GestureType.NONE
  pure (gesture, proximity)

/-! ### App component (`app.component.ts`) -/

/-- `type PaperState = 'IDLE' | 'ACTIVE' | 'CRUMPLED_1' | 'CRUMPLED_2'
| 'CRUMPLED_FINAL' | 'BURNING' | 'ASHES'`. -/
inductive PaperState
  | IDLE
  | ACTIVE
  | CRUMPLED_1
  | CRUMPLED_2
  | CRUMPLED_FINAL
  | BURNING
  | ASHES
deriving DecidableEq, Repr

/-- `interface Spark` — the CSS animation fields `delay` and `duration`
are the strings `"<q>s"` built from the random draw `q`. -/
structure Spark where
  x : ℚ
  y : ℚ
  tx : ℚ
  ty : ℚ
  scale : ℚ
  delay : String
  duration : String
deriving DecidableEq, Repr

/-- A selected or dropped file; only `file.name` and `file.type` are
read by `handleFile`. -/
structure FileInfo where
  name : String
  type : String
deriving DecidableEq, Repr

/-- The component's mutable state: the `paperState`, `fileName`,
`fileType`, `isShaking` and `sparks` signals, the private fields
`gestureHoldCounter` and `canCrumple`, and `pendingAsh`, which models
the one-shot `setTimeout` scheduled by `burnPaper` (its millisecond
delay while scheduled, `none` otherwise).  The component keeps no
handle to that timeout — nothing ever cancels it. -/
structure AppState where
  paperState : PaperState
  fileName : String
  fileType : String
  isShaking : Bool
  sparks : List Spark
  gestureHoldCounter : ℕ
  canCrumple : Bool
  pendingAsh : Option ℕ
deriving DecidableEq, Repr

/-- The field initialisers: `paperState = 'IDLE'`, empty file info, not
shaking, no sparks, `gestureHoldCounter = 0`, `canCrumple = true`, no
pending timeout. -/
def initState : AppState :=
  { paperState := PaperState.IDLE
    fileName := ""
    fileType := ""
    isShaking := false
    sparks := []
    gestureHoldCounter := 0
    canCrumple := true
    pendingAsh := none }

/-- `triggerCrumple()`: advance `ACTIVE → CRUMPLED_1 → CRUMPLED_2 →
CRUMPLED_FINAL`; when a transition happened, the crumple sound plays and
the shake pulse starts (`isShaking = true`, with a 400 ms un-shake
callback not modelled).  In any other state nothing changes. -/
def triggerCrumple (s : AppState) : AppState :=
  if s.paperState = PaperState.ACTIVE then
    { s with paperState := PaperState.CRUMPLED_1, isShaking := true }
  else if s.paperState = PaperState.CRUMPLED_1 then
    { s with paperState := PaperState.CRUMPLED_2, isShaking := true }
  else if s.paperState = PaperState.CRUMPLED_2 then
    { s with paperState := PaperState.CRUMPLED_FINAL, isShaking := true }
  else s

/-- `generateSparks()`: 40 sparks, each built from seven successive
`Math.random()` draws.  `rnd` is the stream of draws, indexed by call
number. -/
def generateSparks (rnd : ℕ → ℚ) : List Spark :=
  (List.range 40).map fun i =>
    { x := 50 + (rnd (7 * i) * 40 - 20)
      y := 60 + (rnd (7 * i + 1) * 20 - 10)
      tx := rnd (7 * i + 2) * 200 - 100
      ty := -(rnd (7 * i + 3) * 200 + 100)
      scale := rnd (7 * i + 4) * 1.5 + 0.5
      delay := toString (rnd (7 * i + 5) * 0.5) ++ "s"
      duration := toString (rnd (7 * i + 6) * 1 + 0.5) ++ "s" }

/-- The 2500 ms delay passed to `setTimeout` in `burnPaper`. -/
def burnDurationMs : ℕ := 2500

/-- `burnPaper()`: early return while already `BURNING` or `ASHES`;
otherwise enter `BURNING`, play the burn sound, generate the sparks and
schedule the burn-to-ashes callback 2500 ms out. -/
def burnPaper (rnd : ℕ → ℚ) (s : AppState) : AppState :=
  if s.paperState = PaperState.BURNING ∨ s.paperState = PaperState.ASHES then s
  else
    { s with paperState := PaperState.BURNING
             sparks := generateSparks rnd
             pendingAsh := some burnDurationMs }

/-- The body of the `setTimeout` callback scheduled by `burnPaper`:
`paperState.set('ASHES'); sparks.set([])`.  It runs once the scheduled
delay elapses, unconditionally — the component never cancels it. -/
def ashCallback (s : AppState) : AppState :=
  { s with paperState := PaperState.ASHES, sparks := [], pendingAsh := none }

/-- The result of one `handleGameLoop` call: the new component state,
and whether this call invoked `triggerCrumple` (a CRUMPLE intent) and
`burnPaper` (a BURN intent). -/
structure StepOut where
  state : AppState
  crumpleFired : Bool
  burnFired : Bool
deriving DecidableEq, Repr

/-- `handleGameLoop(gesture, proximity)`, the per-frame debouncing step:
re-arm `canCrumple` on `OPEN_PALM`/`NONE`; on `FIST` with the gate open
increment `gestureHoldCounter` and, past 5, crumple once and close the
gate, while any other shape (or a closed gate) zeroes the counter; then,
from `CRUMPLED_FINAL`, an `OPEN_PALM` with `proximity > 0.15` burns. -/
def handleGameLoop (rnd : ℕ → ℚ) (s : AppState) (gesture : GestureType)
    (proximity : ℚ) : StepOut :=
  let s0 :=
    if gesture = GestureType.OPEN_PALM ∨ gesture = GestureType.NONE then
      { s with canCrumple := true }
    else s
  let crumpleStep : AppState × Bool :=
    if gesture = GestureType.FIST ∧ s0.canCrumple then
      let s1 := { s0 with gestureHoldCounter := s0.gestureHoldCounter + 1 }
      if s1.gestureHoldCounter > 5 then
        ({ triggerCrumple s1 with gestureHoldCounter := 0, canCrumple := false },
         true)
      else (s1, false)
    else ({ s0 with gestureHoldCounter := 0 }, false)
  let s2 := crumpleStep.1
  if s2.paperState = PaperState.CRUMPLED_FINAL ∧
      gesture = GestureType.OPEN_PALM ∧ proximity > 0.15 then
    { state := burnPaper rnd s2, crumpleFired := crumpleStep.2, burnFired := true }
  else
    { state := s2, crumpleFired := crumpleStep.2, burnFired := false }

/-- `handleFile(file)`: record name and type, enter `ACTIVE`, start the
background music.  Note: no state guard here — the guards live in
`triggerUpload` and `onDrop`. -/
def handleFile (f : FileInfo) (s : AppState) : AppState :=
  { s with fileName := f.name, fileType := f.type,
           paperState := PaperState.ACTIVE }

/-- `onFileSelected(event)`: if the input carries at least one file,
hand the first to `handleFile` (then clear the input element's value,
which is DOM-only).  There is no `paperState` check on this path. -/
def onFileSelected (files : List FileInfo) (s : AppState) : AppState :=
  match files with
  | [] => s
  | f :: _ => handleFile f s

/-- `onDrop(event)`: ignore the drop unless `paperState` is `IDLE`;
then hand the first dropped file, if any, to `handleFile`. -/
def onDrop (files : List FileInfo) (s : AppState) : AppState :=
  if s.paperState ≠ PaperState.IDLE then s
  else
    match files with
    | [] => s
    | f :: _ => handleFile f s

/-- `triggerUpload()`: the hidden file input is clicked (the file
dialog opens) exactly when `paperState` is `IDLE`. -/
def triggerUpload (s : AppState) : Bool :=
  s.paperState = PaperState.IDLE

/-- `reset()`: `paperState = 'IDLE'`, clear `fileName` and `sparks`,
stop the music.  `fileType`, `isShaking`, `gestureHoldCounter`,
`canCrumple` are untouched, and the pending burn timeout, if any, is
not cancelled. -/
def reset (s : AppState) : AppState :=
  { s with paperState := PaperState.IDLE, fileName := "", sparks := [] }

/-! ### Event-level semantics

The component reacts to: one `handleGameLoop` call per gesture frame
(via the constructor `effect`), the two file-arrival handlers, the
public `reset`, and the firing of the scheduled burn timeout. -/

inductive Event
  | frame (gesture : GestureType) (proximity : ℚ)
  | fileSelect (files : List FileInfo)
  | drop (files : List FileInfo)
  | resetReq
  | burnFire
deriving Repr

/-- One event against the component.  `burnFire` is the runtime firing
a previously scheduled burn timeout; with none scheduled there is
nothing to fire. -/
def stepEvent (rnd : ℕ → ℚ) (s : AppState) : Event → AppState
  | Event.frame g p => (handleGameLoop rnd s g p).state
  | Event.fileSelect files => onFileSelected files s
  | Event.drop files => onDrop files s
  | Event.resetReq => reset s
  | Event.burnFire => if s.pendingAsh.isSome then ashCallback s else s

/-- Run a sequence of events. -/
def runEvents (rnd : ℕ → ℚ) (s : AppState) (evs : List Event) : AppState :=
  evs.foldl (stepEvent rnd) s

/-- A component state reachable from construction by some event
sequence (for some stream of random draws). -/
def Reachable (s : AppState) : Prop :=
  ∃ rnd evs, runEvents rnd initState evs = s

/-- Run a sequence of gesture frames through `handleGameLoop`, counting
the CRUMPLE intents (`triggerCrumple` invocations) along the way. -/
def runFrames (rnd : ℕ → ℚ) (s : AppState) :
    List (GestureType × ℚ) → AppState × ℕ
  | [] => (s, 0)
  | f :: rest =>
    let out := handleGameLoop rnd s f.1 f.2
    let r := runFrames rnd out.state rest
    (r.1, (if out.crumpleFired then 1 else 0) + r.2)

/-! ### Spec-side definitions (for the refinement statements) -/

/-- The curled-finger count as §4.1 of the spec words it: among the four
fingers index, middle, ring and pinky — tips 8, 12, 16, 20 with PIP
joints 6, 10, 14, 18 — a finger is curled when the Euclidean 3D
tip-to-wrist distance is strictly less than the PIP-to-wrist distance
(the wrist is landmark 0; the thumb is excluded). -/
def specCurledCount (lm : List Landmark) : ℕ :=
  List.countP
    (fun fp : ℕ × ℕ =>
      decide (dist (lm.getD fp.1 default) (lm.getD 0 default) <
        dist (lm.getD fp.2 default) (lm.getD 0 default)))
    [(8, 6), (12, 10), (16, 14), (20, 18)]

/-- The classification rule as the spec words it: with `c` the number of
curled fingers, `c ≥ 3 → FIST`, `c = 0 → OPEN_PALM`, otherwise
(`c ∈ {1, 2}`) `NONE`. -/
def specClassify (c : ℕ) : GestureType :=
  if 3 ≤ c then GestureType.FIST
  else if c = 0 then GestureType.OPEN_PALM
  else GestureType.NONE

/-- A fixed stream of random draws, used to instantiate theorems on
concrete inputs. -/
def rnd0 : ℕ → ℚ := fun _ => 0

/-! ### Field-preservation lemmas -/

theorem triggerCrumple_gestureHoldCounter (s : AppState) :
    (triggerCrumple s).gestureHoldCounter = s.gestureHoldCounter := by
  obtain ⟨ps, _, _, _, _, _, _, _⟩ := s
  cases ps <;> simp [triggerCrumple]

theorem triggerCrumple_canCrumple (s : AppState) :
    (triggerCrumple s).canCrumple = s.canCrumple := by
  obtain ⟨ps, _, _, _, _, _, _, _⟩ := s
  cases ps <;> simp [triggerCrumple]

theorem triggerCrumple_pendingAsh (s : AppState) :
    (triggerCrumple s).pendingAsh = s.pendingAsh := by
  obtain ⟨ps, _, _, _, _, _, _, _⟩ := s
  cases ps <;> simp [triggerCrumple]

theorem burnPaper_gestureHoldCounter (rnd : ℕ → ℚ) (s : AppState) :
    (burnPaper rnd s).gestureHoldCounter = s.gestureHoldCounter := by
  unfold burnPaper
  split <;> rfl

theorem burnPaper_canCrumple (rnd : ℕ → ℚ) (s : AppState) :
    (burnPaper rnd s).canCrumple = s.canCrumple := by
  unfold burnPaper
  split <;> rfl

/-! ### Claims -/

/-- C10: within one `handleGameLoop` call, a CRUMPLE intent
(`triggerCrumple` invocation) and a BURN intent (`burnPaper`
invocation) never both fire: the former requires the frame's gesture to
be `FIST`, the latter `OPEN_PALM`, and the frame has one gesture. -/
theorem crumple_burn_exclusive (rnd : ℕ → ℚ) (s : AppState)
    (g : GestureType) (p : ℚ) :
    ((handleGameLoop rnd s g p).crumpleFired &&
      (handleGameLoop rnd s g p).burnFired) = false := by
  cases g <;> (simp [handleGameLoop]; try (split <;> simp))

/-- C1: the code at the claim's failing input — with the paper
`BURNING` and the 2500 ms burn timeout still scheduled, an external
reset does set the state to `IDLE` immediately, but the timeout is not
cancelled, and when it later fires it overwrites `IDLE` with `ASHES`
(so the state does not stay `IDLE` for every elapsed time, contradicting
the claim). -/
theorem reset_during_burn_not_cancelled (rnd : ℕ → ℚ) (s : AppState)
    (_hb : s.paperState = PaperState.BURNING)
    (hp : s.pendingAsh.isSome = true) :
    (stepEvent rnd s Event.resetReq).paperState = PaperState.IDLE ∧
    (stepEvent rnd (stepEvent rnd s Event.resetReq)
        Event.burnFire).paperState = PaperState.ASHES := by
  refine ⟨rfl, ?_⟩
  have hpending : (reset s).pendingAsh.isSome = true := hp
  simp [stepEvent, hpending, ashCallback]

theorem reset_during_burn_not_cancelled_witness :
    (stepEvent rnd0
        { initState with paperState := PaperState.BURNING,
                         pendingAsh := some burnDurationMs }
        Event.resetReq).paperState = PaperState.IDLE ∧
    (stepEvent rnd0
        (stepEvent rnd0
          { initState with paperState := PaperState.BURNING,
                           pendingAsh := some burnDurationMs }
          Event.resetReq)
        Event.burnFire).paperState = PaperState.ASHES :=
  reset_during_burn_not_cancelled rnd0 _ rfl rfl

/-- C7 counterexample: starting from a state whose debounce fields are
`gestureHoldCounter = 3`, `canCrumple = false`, an external `reset` does
not restore them to `{0, true}` — `reset` never touches them. -/
theorem reset_keeps_debounce_fields_counterexample :
    ¬ ((reset { initState with gestureHoldCounter := 3,
                               canCrumple := false }).gestureHoldCounter = 0 ∧
       (reset { initState with gestureHoldCounter := 3,
                               canCrumple := false }).canCrumple = true) := by
  decide

/-- C7 amended: on construction the debounce state is
`{holdCounter = 0, gateOpen = true}`, but an external `reset` leaves
both debounce fields exactly as they were (while forcing the paper
state back to `IDLE`). -/
theorem reset_preserves_debounce_state :
    initState.gestureHoldCounter = 0 ∧ initState.canCrumple = true ∧
    ∀ s : AppState,
      (reset s).gestureHoldCounter = s.gestureHoldCounter ∧
      (reset s).canCrumple = s.canCrumple ∧
      (reset s).paperState = PaperState.IDLE :=
  ⟨rfl, rfl, fun _ => ⟨rfl, rfl, rfl⟩⟩

/-- C9 counterexample: a file arriving through the file-selection input
while the paper state is `BURNING` (not `IDLE`) is not ignored — it
transitions the state to `ACTIVE`, because `onFileSelected` has no
state guard. -/
theorem fileSelected_outside_idle_counterexample :
    ({ initState with
        paperState := PaperState.BURNING } : AppState).paperState ≠
      PaperState.IDLE ∧
    (onFileSelected [{ name := "doc.txt", type := "text/plain" }]
        { initState with
            paperState := PaperState.BURNING }).paperState =
      PaperState.ACTIVE := by
  exact ⟨by decide, rfl⟩

/-- C9 amended: a `FileLoaded` arriving by drag-and-drop (`onDrop`) is
accepted only while the state is `IDLE` — otherwise it causes no change
at all — and an accepted one transitions `IDLE → ACTIVE`; a
`FileLoaded` arriving through the file-selection input
(`onFileSelected`) is applied from every state and always yields
`ACTIVE`, though the file dialog itself (`triggerUpload`) only opens
while the state is `IDLE`. -/
theorem fileLoaded_guards (s : AppState) (f : FileInfo)
    (fs : List FileInfo) :
    (s.paperState ≠ PaperState.IDLE → onDrop (f :: fs) s = s) ∧
    (s.paperState = PaperState.IDLE →
      (onDrop (f :: fs) s).paperState = PaperState.ACTIVE) ∧
    (onFileSelected (f :: fs) s).paperState = PaperState.ACTIVE ∧
    (triggerUpload s = true ↔ s.paperState = PaperState.IDLE) := by
  refine ⟨fun h => ?_, fun h => ?_, rfl, ?_⟩
  · simp [onDrop, h]
  · simp [onDrop, h, handleFile]
  · simp [triggerUpload]

/-- A `FIST` frame with the gate open and the incremented counter still
at most 5: only the counter changes, and no intent fires. -/
theorem handleGameLoop_fist_low (rnd : ℕ → ℚ) (s : AppState) (p : ℚ)
    (hc : s.canCrumple = true) (hn : s.gestureHoldCounter + 1 ≤ 5) :
    handleGameLoop rnd s GestureType.FIST p =
      { state := { s with gestureHoldCounter := s.gestureHoldCounter + 1 },
        crumpleFired := false, burnFired := false } := by
  have hlt : ¬ (s.gestureHoldCounter + 1 > 5) := by omega
  simp [handleGameLoop, hc, hlt]

/-- A `FIST` frame with the gate open pushing the counter past 5: the
CRUMPLE intent fires, the counter is zeroed and the gate closes. -/
theorem handleGameLoop_fist_fire (rnd : ℕ → ℚ) (s : AppState) (p : ℚ)
    (hc : s.canCrumple = true) (hn : 5 < s.gestureHoldCounter + 1) :
    handleGameLoop rnd s GestureType.FIST p =
      { state :=
          { triggerCrumple
              { s with gestureHoldCounter := s.gestureHoldCounter + 1 } with
            gestureHoldCounter := 0, canCrumple := false },
        crumpleFired := true, burnFired := false } := by
  simp [handleGameLoop, hc, hn]

/-- A `FIST` frame with the gate closed: the counter is zeroed (the
`else` branch) and nothing fires. -/
theorem handleGameLoop_fist_closed (rnd : ℕ → ℚ) (s : AppState) (p : ℚ)
    (h : s.canCrumple = false) :
    handleGameLoop rnd s GestureType.FIST p =
      { state := { s with gestureHoldCounter := 0 },
        crumpleFired := false, burnFired := false } := by
  simp [handleGameLoop, h]

/-- Running `k ≤ 5 - holdCounter` consecutive `FIST` frames with the
gate open just accumulates the counter, with no CRUMPLE intent. -/
theorem runFrames_fist_low (rnd : ℕ → ℚ) (p : ℚ) :
    ∀ (k : ℕ) (s : AppState), s.canCrumple = true →
      s.gestureHoldCounter + k ≤ 5 →
      runFrames rnd s (List.replicate k (GestureType.FIST, p)) =
        ({ s with gestureHoldCounter := s.gestureHoldCounter + k }, 0) := by
  intro k
  induction k with
  | zero => intro s _ _; simp [runFrames]
  | succ n ih =>
    intro s hc hk
    rw [List.replicate_succ]
    simp only [runFrames]
    rw [handleGameLoop_fist_low rnd s p hc (by omega)]
    dsimp only
    rw [ih { s with gestureHoldCounter := s.gestureHoldCounter + 1 } hc
      (by show s.gestureHoldCounter + 1 + n ≤ 5; omega)]
    simp [Nat.add_assoc, Nat.add_comm 1 n]

/-- `runFrames` splits across list append, summing the intent counts. -/
theorem runFrames_append (rnd : ℕ → ℚ) (a b : List (GestureType × ℚ)) :
    ∀ s, runFrames rnd s (a ++ b) =
      ((runFrames rnd (runFrames rnd s a).1 b).1,
        (runFrames rnd s a).2 + (runFrames rnd (runFrames rnd s a).1 b).2) := by
  induction a with
  | nil => intro s; simp [runFrames]
  | cons f t ih =>
    intro s
    simp only [List.cons_append, runFrames, List.append_eq]
    rw [ih]
    simp [Nat.add_assoc]

/-- A CRUMPLE intent closes the gate. -/
theorem crumpleFired_closes_gate (rnd : ℕ → ℚ) (s : AppState)
    (g : GestureType) (p : ℚ) :
    (handleGameLoop rnd s g p).crumpleFired = true →
    (handleGameLoop rnd s g p).state.canCrumple = false := by
  cases g <;>
    (simp [handleGameLoop];
     try (split_ifs <;> simp [burnPaper_canCrumple]))

/-- With the gate closed, an unbroken run of `FIST` frames produces no
CRUMPLE intent and leaves the gate closed. -/
theorem runFrames_fist_closed (rnd : ℕ → ℚ) :
    ∀ (frames : List (GestureType × ℚ)) (s : AppState),
      s.canCrumple = false → (∀ f ∈ frames, f.1 = GestureType.FIST) →
      (runFrames rnd s frames).2 = 0 := by
  intro frames
  induction frames with
  | nil => intro s _ _; simp [runFrames]
  | cons f t ih =>
    intro s h hall
    obtain ⟨g, q⟩ := f
    have hf : g = GestureType.FIST := hall (g, q) (by simp)
    subst hf
    simp only [runFrames]
    rw [handleGameLoop_fist_closed rnd s q h]
    simp only [if_neg Bool.false_ne_true, Nat.zero_add]
    exact ih _ h (fun f hf => hall f (List.mem_cons_of_mem _ hf))

/-- C2: from a debounce state `{holdCounter = 0, gateOpen = true}`,
five consecutive `FIST` frames fire no CRUMPLE intent; six fire exactly
one, after which `holdCounter = 0` and the gate is closed. -/
theorem fist_hold_debounce (rnd : ℕ → ℚ) (s : AppState) (p : ℚ)
    (h0 : s.gestureHoldCounter = 0) (hg : s.canCrumple = true) :
    (runFrames rnd s (List.replicate 5 (GestureType.FIST, p))).2 = 0 ∧
    (runFrames rnd s (List.replicate 6 (GestureType.FIST, p))).2 = 1 ∧
    (runFrames rnd s
        (List.replicate 6 (GestureType.FIST, p))).1.gestureHoldCounter = 0 ∧
    (runFrames rnd s
        (List.replicate 6 (GestureType.FIST, p))).1.canCrumple = false := by
  obtain ⟨ps, fn, ft, sh, sp, c, cc, pa⟩ := s
  have hc : c = 0 := h0
  have hcc : cc = true := hg
  subst hc hcc
  refine ⟨?_, ?_, ?_, ?_⟩ <;>
    simp [runFrames, handleGameLoop, List.replicate]

theorem fist_hold_debounce_witness :
    (runFrames rnd0 initState
        (List.replicate 5 (GestureType.FIST, 0))).2 = 0 ∧
    (runFrames rnd0 initState
        (List.replicate 6 (GestureType.FIST, 0))).2 = 1 ∧
    (runFrames rnd0 initState
        (List.replicate 6 (GestureType.FIST, 0))).1.gestureHoldCounter = 0 ∧
    (runFrames rnd0 initState
        (List.replicate 6 (GestureType.FIST, 0))).1.canCrumple = false :=
  fist_hold_debounce rnd0 initState 0 rfl rfl

/-- C3: once a `handleGameLoop` call has fired a CRUMPLE intent, a
subsequent unbroken all-`FIST` frame sequence of any length fires no
further CRUMPLE; a later CRUMPLE requires at least one `OPEN_PALM` or
`NONE` sample among the subsequent frames. -/
theorem crumple_needs_rearm (rnd : ℕ → ℚ) (s : AppState)
    (g : GestureType) (p : ℚ) (frames : List (GestureType × ℚ))
    (hfire : (handleGameLoop rnd s g p).crumpleFired = true) :
    ((∀ f ∈ frames, f.1 = GestureType.FIST) →
      (runFrames rnd (handleGameLoop rnd s g p).state frames).2 = 0) ∧
    (0 < (runFrames rnd (handleGameLoop rnd s g p).state frames).2 →
      ∃ f ∈ frames,
        f.1 = GestureType.OPEN_PALM ∨ f.1 = GestureType.NONE) := by
  have hclosed := crumpleFired_closes_gate rnd s g p hfire
  refine ⟨fun hall => runFrames_fist_closed rnd frames _ hclosed hall, ?_⟩
  intro hpos
  by_contra hno
  push_neg at hno
  have hall : ∀ f ∈ frames, f.1 = GestureType.FIST := by
    intro f hf
    have hnf := hno f hf
    cases hq : f.1 with
    | NONE => exact absurd hq hnf.2
    | FIST => rfl
    | OPEN_PALM => exact absurd hq hnf.1
  have := runFrames_fist_closed rnd frames _ hclosed hall
  omega

theorem crumple_needs_rearm_witness :
    (handleGameLoop rnd0 { initState with gestureHoldCounter := 5 }
        GestureType.FIST 0).crumpleFired = true ∧
    (runFrames rnd0
        (handleGameLoop rnd0 { initState with gestureHoldCounter := 5 }
          GestureType.FIST 0).state
        (List.replicate 6 (GestureType.FIST, 0))).2 = 0 :=
  ⟨rfl,
    (crumple_needs_rearm rnd0 { initState with gestureHoldCounter := 5 }
      GestureType.FIST 0 (List.replicate 6 (GestureType.FIST, 0)) rfl).1
      (by simp)⟩

theorem fileLoaded_guards_witness :
    (onDrop [{ name := "doc.txt", type := "text/plain" }]
        { initState with paperState := PaperState.BURNING } =
      { initState with paperState := PaperState.BURNING }) ∧
    (onDrop [{ name := "doc.txt", type := "text/plain" }]
        initState).paperState = PaperState.ACTIVE :=
  ⟨(fileLoaded_guards _ _ _).1 (by decide),
   (fileLoaded_guards _ _ _).2.1 rfl⟩

theorem generateSparks_length (rnd : ℕ → ℚ) :
    (generateSparks rnd).length = 40 := by
  simp [generateSparks]

/-- C4: from `CRUMPLED_FINAL`, an `OPEN_PALM` frame with proximity
strictly above 0.15 starts the burn: the state becomes `BURNING` with
exactly 40 sparks and the ash callback scheduled at the fixed 2500 ms
delay; when that delay elapses with no further input, the state becomes
`ASHES` and the sparks are cleared. -/
theorem burn_scenario (rnd : ℕ → ℚ) (s : AppState) (p : ℚ)
    (hs : s.paperState = PaperState.CRUMPLED_FINAL) (hp : p > 0.15) :
    (handleGameLoop rnd s GestureType.OPEN_PALM p).state.paperState =
      PaperState.BURNING ∧
    (handleGameLoop rnd s GestureType.OPEN_PALM p).state.sparks.length = 40 ∧
    (handleGameLoop rnd s GestureType.OPEN_PALM p).state.pendingAsh =
      some burnDurationMs ∧
    burnDurationMs = 2500 ∧
    (stepEvent rnd (handleGameLoop rnd s GestureType.OPEN_PALM p).state
        Event.burnFire).paperState = PaperState.ASHES ∧
    (stepEvent rnd (handleGameLoop rnd s GestureType.OPEN_PALM p).state
        Event.burnFire).sparks = [] := by
  refine ⟨?_, ?_, ?_, rfl, ?_, ?_⟩ <;>
    simp [handleGameLoop, hs, hp, burnPaper, stepEvent, ashCallback,
      generateSparks_length]

theorem burn_scenario_witness :
    (handleGameLoop rnd0
        { initState with paperState := PaperState.CRUMPLED_FINAL }
        GestureType.OPEN_PALM 0.2).state.paperState = PaperState.BURNING ∧
    (handleGameLoop rnd0
        { initState with paperState := PaperState.CRUMPLED_FINAL }
        GestureType.OPEN_PALM 0.2).state.sparks.length = 40 ∧
    (handleGameLoop rnd0
        { initState with paperState := PaperState.CRUMPLED_FINAL }
        GestureType.OPEN_PALM 0.2).state.pendingAsh = some burnDurationMs ∧
    burnDurationMs = 2500 ∧
    (stepEvent rnd0
        (handleGameLoop rnd0
          { initState with paperState := PaperState.CRUMPLED_FINAL }
          GestureType.OPEN_PALM 0.2).state Event.burnFire).paperState =
      PaperState.ASHES ∧
    (stepEvent rnd0
        (handleGameLoop rnd0
          { initState with paperState := PaperState.CRUMPLED_FINAL }
          GestureType.OPEN_PALM 0.2).state Event.burnFire).sparks = [] :=
  burn_scenario rnd0 _ 0.2 rfl (by norm_num)

/-- C8 counterexample: with the gate closed and `holdCounter = 3`, a
`FIST` frame does change the counter — the loop's `else` branch zeroes
it rather than leaving it untouched. -/
theorem fist_closed_gate_counterexample :
    ¬ ((handleGameLoop rnd0
          { initState with gestureHoldCounter := 3, canCrumple := false }
          GestureType.FIST 0).state.gestureHoldCounter =
        ({ initState with gestureHoldCounter := 3, canCrumple := false } :
            AppState).gestureHoldCounter) := by
  decide

/-- One event preserves the invariant "a closed gate implies a zero
hold counter". -/
theorem closedGate_inv_step (rnd : ℕ → ℚ) (s : AppState) (e : Event)
    (h : s.canCrumple = false → s.gestureHoldCounter = 0) :
    (stepEvent rnd s e).canCrumple = false →
    (stepEvent rnd s e).gestureHoldCounter = 0 := by
  cases e with
  | frame g p =>
    cases g with
    | NONE => simp [stepEvent, handleGameLoop]
    | OPEN_PALM =>
      simp only [stepEvent]
      simp [handleGameLoop]
      split <;> simp [burnPaper_gestureHoldCounter]
    | FIST =>
      by_cases hc : s.canCrumple = true
      · by_cases hn : s.gestureHoldCounter + 1 > 5
        · simp only [stepEvent]
          rw [handleGameLoop_fist_fire rnd s p hc hn]
          intro
          rfl
        · simp only [stepEvent]
          rw [handleGameLoop_fist_low rnd s p hc (by omega)]
          intro hfalse
          exact absurd (hfalse.symm.trans hc) (by simp)
      · simp only [stepEvent]
        rw [handleGameLoop_fist_closed rnd s p (by simpa using hc)]
        intro
        rfl
  | fileSelect files =>
    cases files with
    | nil => exact h
    | cons f fs => simp [stepEvent, onFileSelected, handleFile]; exact h
  | drop files =>
    simp only [stepEvent, onDrop]
    split
    · exact h
    · cases files with
      | nil => exact h
      | cons f fs => simp [handleFile]; exact h
  | resetReq => exact h
  | burnFire =>
    simp only [stepEvent]
    split
    · exact h
    · exact h

/-- An event sequence preserves the closed-gate invariant. -/
theorem closedGate_inv_run (rnd : ℕ → ℚ) (evs : List Event) :
    ∀ s : AppState, (s.canCrumple = false → s.gestureHoldCounter = 0) →
      ((runEvents rnd s evs).canCrumple = false →
        (runEvents rnd s evs).gestureHoldCounter = 0) := by
  induction evs with
  | nil => intro s h; simpa [runEvents] using h
  | cons e t ih =>
    intro s h
    have hstep := closedGate_inv_step rnd s e h
    simpa [runEvents] using ih (stepEvent rnd s e) hstep

/-- C8 amended: a `FIST` frame with the gate closed sets
`holdCounter := 0` (rather than leaving it untouched) and fires no
CRUMPLE intent; since in every reachable component state a closed gate
implies `holdCounter = 0`, the observable counter value is unchanged in
every run of the program. -/
theorem fist_closed_gate_amended :
    (∀ (rnd : ℕ → ℚ) (s : AppState) (p : ℚ), s.canCrumple = false →
      (handleGameLoop rnd s GestureType.FIST p).state.gestureHoldCounter = 0 ∧
      (handleGameLoop rnd s GestureType.FIST p).crumpleFired = false) ∧
    (∀ s : AppState, Reachable s → s.canCrumple = false →
      s.gestureHoldCounter = 0) := by
  constructor
  · intro rnd s p h
    rw [handleGameLoop_fist_closed rnd s p h]
    exact ⟨rfl, rfl⟩
  · rintro s ⟨rnd, evs, hrun⟩ hc
    rw [← hrun] at hc ⊢
    exact closedGate_inv_run rnd evs initState (by intro hfalse; cases hfalse) hc

theorem fist_closed_gate_amended_witness :
    (handleGameLoop rnd0
        { initState with gestureHoldCounter := 4, canCrumple := false }
        GestureType.FIST 0).state.gestureHoldCounter = 0 ∧
    (runEvents rnd0 initState
        (List.replicate 6 (Event.frame GestureType.FIST 0))).gestureHoldCounter
      = 0 :=
  ⟨(fist_closed_gate_amended.1 rnd0
      { initState with gestureHoldCounter := 4, canCrumple := false } 0 rfl).1,
   fist_closed_gate_amended.2 _
     ⟨rnd0, List.replicate 6 (Event.frame GestureType.FIST 0), rfl⟩ rfl⟩

/-- One successful iteration of the curl loop: with tip, knuckle and
PIP (`tipIdx - 2`) all in range, the iteration reports the comparison
of tip-to-wrist against PIP-to-wrist distance. -/
theorem curlFinger_eq (lm : List Landmark) (w : Landmark) (t m q : ℕ)
    (hq : t - 2 = q) (ht : t < lm.length) (hm : m < lm.length)
    (hql : q < lm.length) :
    curlFinger lm w t m =
      some (decide (dist (lm.getD t default) w <
        dist (lm.getD q default) w)) := by
  subst hq
  simp only [curlFinger, List.getElem?_eq_getElem ht,
    List.getElem?_eq_getElem hm, List.getElem?_eq_getElem hql,
    Option.bind_eq_bind, Option.some_bind, Option.pure_def,
    List.getD_eq_getElem lm default ht,
    List.getD_eq_getElem lm default hql]

/-- C5: on every 21-point landmark set the classifier succeeds and
returns exactly the spec's classification: `FIST` when at least 3 of
the four fingers have tip-to-wrist distance strictly below PIP-to-wrist
distance, `OPEN_PALM` when none has, `NONE` otherwise — together with
the bounding-box proximity. -/
theorem classifier_matches_spec (lm : List Landmark) (h : lm.length = 21) :
    processGesture lm =
      some (specClassify (specCurledCount lm), proximityOf lm) := by
  have e0 : lm[0]? = some lm[0] := List.getElem?_eq_getElem (by omega)
  have g0 : lm.getD 0 default = lm[0] :=
    List.getD_eq_getElem lm default (by omega)
  have c8 := curlFinger_eq lm lm[0] 8 5 6 rfl (by omega) (by omega) (by omega)
  have c12 := curlFinger_eq lm lm[0] 12 9 10 rfl (by omega) (by omega)
    (by omega)
  have c16 := curlFinger_eq lm lm[0] 16 13 14 rfl (by omega) (by omega)
    (by omega)
  have c20 := curlFinger_eq lm lm[0] 20 17 18 rfl (by omega) (by omega)
    (by omega)
  simp only [processGesture, e0, c8, c12, c16, c20, Option.bind_eq_bind,
    Option.some_bind, Option.pure_def]
  simp only [specClassify, specCurledCount, List.countP_cons,
    List.countP_nil, g0]
  generalize decide (dist (lm.getD 8 default) lm[0] <
    dist (lm.getD 6 default) lm[0]) = b1
  generalize decide (dist (lm.getD 12 default) lm[0] <
    dist (lm.getD 10 default) lm[0]) = b2
  generalize decide (dist (lm.getD 16 default) lm[0] <
    dist (lm.getD 14 default) lm[0]) = b3
  generalize decide (dist (lm.getD 20 default) lm[0] <
    dist (lm.getD 18 default) lm[0]) = b4
  cases b1 <;> cases b2 <;> cases b3 <;> cases b4 <;> rfl

theorem classifier_matches_spec_witness :
    processGesture (List.replicate 21 ({ x := 0, y := 0, z := 0 } : Landmark))
      = some
        (specClassify
          (specCurledCount
            (List.replicate 21 ({ x := 0, y := 0, z := 0 } : Landmark))),
         proximityOf
           (List.replicate 21 ({ x := 0, y := 0, z := 0 } : Landmark))) :=
  classifier_matches_spec _ rfl

/-- C6 counterexample: a 22-point landmark set does not make the
classifier fail — `processGesture` produces a gesture sample for it
(there is no cardinality check in the code). -/
theorem no_invalid_input_counterexample :
    (List.replicate 22 ({ x := 0, y := 0, z := 0 } : Landmark)).length ≠ 21 ∧
    (processGesture
        (List.replicate 22 ({ x := 0, y := 0, z := 0 } : Landmark))).isSome
      = true :=
  ⟨by decide, rfl⟩

/-- C6 amended: the classifier has no cardinality check.  Any landmark
list with at least 21 points (including 22-point sets) is classified
and yields a sample; only a list with fewer than 21 points makes the
call fail, through the out-of-bounds access to a fixed landmark index —
there is no `InvalidInput` condition anywhere. -/
theorem classifier_cardinality (lm : List Landmark) :
    (21 ≤ lm.length → (processGesture lm).isSome = true) ∧
    (lm.length < 21 → processGesture lm = none) := by
  constructor
  · intro h
    have e0 : lm[0]? = some lm[0] := List.getElem?_eq_getElem (by omega)
    have e5 : lm[5]? = some lm[5] := List.getElem?_eq_getElem (by omega)
    have e6 : lm[6]? = some lm[6] := List.getElem?_eq_getElem (by omega)
    have e8 : lm[8]? = some lm[8] := List.getElem?_eq_getElem (by omega)
    have e9 : lm[9]? = some lm[9] := List.getElem?_eq_getElem (by omega)
    have e10 : lm[10]? = some lm[10] := List.getElem?_eq_getElem (by omega)
    have e12 : lm[12]? = some lm[12] := List.getElem?_eq_getElem (by omega)
    have e13 : lm[13]? = some lm[13] := List.getElem?_eq_getElem (by omega)
    have e14 : lm[14]? = some lm[14] := List.getElem?_eq_getElem (by omega)
    have e16 : lm[16]? = some lm[16] := List.getElem?_eq_getElem (by omega)
    have e17 : lm[17]? = some lm[17] := List.getElem?_eq_getElem (by omega)
    have e18 : lm[18]? = some lm[18] := List.getElem?_eq_getElem (by omega)
    have e20 : lm[20]? = some lm[20] := List.getElem?_eq_getElem (by omega)
    simp [processGesture, curlFinger,
      e0, e5, e6, e8, e9, e10, e12, e13, e14, e16, e17, e18, e20]
  · intro h
    have h20 : lm[20]? = none := List.getElem?_eq_none (by omega)
    cases e0 : lm[0]? with
    | none => simp [processGesture, e0]
    | some w =>
      cases e1 : curlFinger lm w 8 5 with
      | none => simp [processGesture, e0, e1]
      | some b1 =>
        cases e2 : curlFinger lm w 12 9 with
        | none => simp [processGesture, e0, e1, e2]
        | some b2 =>
          cases e3 : curlFinger lm w 16 13 with
          | none => simp [processGesture, e0, e1, e2, e3]
          | some b3 =>
            simp [processGesture, e0, e1, e2, e3, curlFinger, h20]

theorem classifier_cardinality_witness :
    (processGesture
        (List.replicate 22 ({ x := 0, y := 1, z := 0 } : Landmark))).isSome
      = true ∧
    processGesture
        (List.replicate 20 ({ x := 0, y := 1, z := 0 } : Landmark)) = none :=
  ⟨(classifier_cardinality _).1 (by simp),
   (classifier_cardinality _).2 (by simp)⟩

end GesturePaperBurner
